import Mathlib

/-
Shallow embedding of `src/discord/ext/class_commands/commands.py`
(repository Chiggy-Playz/discord-class-commands).

The file models:
  * the runtime value universe that reaches `CommandMeta.__new__` as class
    attribute values (the `Option` descriptor of lines 60 to 88, bare default
    values, functions, classmethods, staticmethods, and the two library
    sentinels `MISSING` and `inspect.Parameter.empty`);
  * `ParameterData.__init__` (lines 91 to 98);
  * the body of `CommandMeta.__new__` (lines 111 to 149), including the two
    name resolution facts that determine its runtime behaviour: the free name
    `Parameter` on line 128 is unbound in the module, and the name `type` on
    line 141 denotes the Python builtin `type`;
  * the routing logic of `Command.send` (lines 280 to 314);
  * Python instance attribute assignment and lookup, for the per invocation
    instance isolation invariant of the `Command` docstring (lines 165 to 170).
-/

/-- Runtime values that can appear as class attribute values in a command
class body.  `missing` is the library sentinel `MISSING`; `empty` is
`inspect.Parameter.empty` (bound to `_empty` on line 52); `option_` is an
instance of the `Option` class of lines 60 to 88, carrying the constructor
arguments `default`, `name`, `description`, `autocomplete` of its
`__init__`; `function`, `classmethod_`, `staticmethod_` are values whose
exact Python type is `FunctionType`, `classmethod`, `staticmethod`. -/
inductive Value where
  | missing
  | empty
  | none_
  | bool_ (b : Bool)
  | int_ (n : Int)
  | str_ (s : String)
  | function
  | classmethod_
  | staticmethod_
  | option_ (default name description : Value) (autocomplete : Bool)
deriving DecidableEq

/-- Exact type membership test of line 123:
`type(v) in \x7bFunctionType, classmethod, staticmethod\x7d`. -/
def Value.isFunctionLike : Value → Bool
  | Value.function => true
  | Value.classmethod_ => true
  | Value.staticmethod_ => true
  | _ => false

/-- Line 123: the `k.startswith` test, true exactly when the attribute name
begins with an underscore character. -/
def startsWithUnderscore (k : String) : Bool :=
  match k.data with
  | [] => false
  | c :: _ => c == '_'

/-- The skip condition of line 123: private prefixed name, the reserved name
`interaction`, or a function / classmethod / staticmethod valued attribute. -/
def skipAttr (k : String) (v : Value) : Bool :=
  startsWithUnderscore k || k == "interaction" || v.isFunctionLike

/-- `ParameterData` (lines 91 to 98): name, default and annotation of one
synthesized command parameter.  In `CommandMeta.__new__` the annotation is
always the string `annotations.get(k, str())` produces, so it is modelled as
a `String`. -/
structure ParameterData where
  name : String
  default : Value
  annot : String
deriving DecidableEq

/-- `ParameterData.__init__` (lines 92 to 98): a `MISSING` default is
replaced by `inspect.Parameter.empty` before storing. -/
def ParameterData.make (name : String) (default : Value) (annot : String) : ParameterData :=
  ⟨name, if default = Value.missing then Value.empty else default, annot⟩

/-- The Python exceptions `CommandMeta.__new__` can raise. -/
inductive PyError where
  | nameError (name : String)
  | typeError (msg : String)
deriving DecidableEq

/-- The three accumulators of `CommandMeta.__new__`: `arguments` (line 117),
`descriptions` (line 118) and `renames` (line 119), each in insertion
order. -/
structure MetaState where
  arguments : List ParameterData
  descriptions : List (String × Value)
  renames : List (String × Value)
deriving DecidableEq

/-- Name resolution fact for line 128: the name `Parameter` is neither
imported (lines 27 to 47) nor defined at module level in `commands.py`
(the module defines `Option`, `ParameterData`, `CommandMeta`, `Command`,
`SlashCommand`, `UserCommand`, `MessageCommand`), so evaluating
`isinstance(v, Parameter)` raises `NameError` when reached. -/
def parameterIsBound : Bool := false

/-- Name resolution fact for line 141: inside the method body the name
`type` denotes the Python builtin `type` (class scope is not visible from a
method body, so the `type` property of line 156 is not in scope), and the
builtin `type` is not a member of
`\x7bAppCommandType.user, AppCommandType.message\x7d`. -/
def builtinTypeIsUserOrMessage : Bool := false

/-- One iteration of the loop of lines 122 to 139 on attribute `(k, v)`.
If the skip condition of line 123 holds the state is unchanged.  Otherwise
line 126 computes the annotation, and line 128 evaluates
`isinstance(v, Parameter)`: resolving the free name `Parameter` raises
`NameError` (see `parameterIsBound`) before either branch can run.  The
`parameterIsBound` branch records what lines 128 to 139 would do if the
name resolved to the `Option` class whose attributes lines 129 to 131
read. -/
def stepAttr (anns : List (String × String)) (st : MetaState) (k : String) (v : Value) :
    Except (PyError × MetaState) MetaState :=
  if skipAttr k v then Except.ok st
  else
    let annot := ((anns.lookup k).getD "str")
    if parameterIsBound then
      let nds :=
        match v with
        | Value.option_ d n desc _ => (n, d, desc)
        | _ =>
          if v = Value.missing then (Value.missing, Value.missing, Value.missing)
          else (Value.missing, v, Value.missing)
      Except.ok
        ⟨st.arguments ++ [ParameterData.make k nds.2.1 annot],
         st.descriptions ++ (if nds.2.2 ≠ Value.missing then [(k, nds.2.2)] else []),
         st.renames ++ (if nds.1 ≠ Value.missing then [(k, nds.1)] else [])⟩
    else
      Except.error (PyError.nameError "Parameter", st)

/-- The loop of lines 122 to 139 over the class namespace in declaration
order.  An error carries the accumulator state at the moment of the
raise. -/
def runLoop (anns : List (String × String)) :
    List (String × Value) → MetaState → Except (PyError × MetaState) MetaState
  | [], st => Except.ok st
  | (k, v) :: rest, st =>
    match stepAttr anns st k v with
    | Except.error e => Except.error e
    | Except.ok st2 => runLoop anns rest st2

/-- The guard of line 141:
`type in \x7bAppCommandType.user, AppCommandType.message\x7d and len(arguments) > 1`
(see `builtinTypeIsUserOrMessage` for the meaning of `type` there). -/
def contextMenuGuardHolds (arguments : List ParameterData) : Bool :=
  builtinTypeIsUserOrMessage && decide (1 < arguments.length)

/-- `CommandMeta.__new__` (lines 111 to 149) on the class namespace `attrs`
(the user declared attribute bindings, in declaration order; dunder entries
inserted by Python all begin with an underscore and are skipped by line
123 anyway) and the class body annotations `anns` of line 121, a map from
attribute name to annotation string.  The result is
the accumulated parameter, description and rename data, or the exception
raised, paired with the accumulator state at the raise. -/
def CommandMeta.new (attrs : List (String × Value)) (anns : List (String × String)) :
    Except (PyError × MetaState) MetaState :=
  match runLoop anns attrs ⟨[], [], []⟩ with
  | Except.error e => Except.error e
  | Except.ok st =>
    if contextMenuGuardHolds st.arguments then
      Except.error (PyError.typeError "Context menu commands must take exactly one argument", st)
    else
      Except.ok st

/-- The accumulator state a run of `CommandMeta.__new__` reached, whether it
returned or raised. -/
def resultState : Except (PyError × MetaState) MetaState → MetaState
  | Except.error e => e.2
  | Except.ok st => st

/-- Whether a run of `CommandMeta.__new__` raised a `TypeError`. -/
def isTypeErr : Except (PyError × MetaState) MetaState → Bool
  | Except.error (PyError.typeError _, _) => true
  | _ => false

/-- An opaque handle standing for an Embed, File, AllowedMentions or View
object passed through `Command.send` unexamined. -/
structure Obj where
  oid : Nat
deriving DecidableEq

/-- The `nonce` argument: a string or an integer in the source signature. -/
inductive NonceV where
  | strNonce (s : String)
  | intNonce (n : Int)
deriving DecidableEq

/-- The arguments of `Command.send` (lines 203 to 217).  `Option` is Python
`None` versus a value. -/
structure SendArgs where
  content : Option String
  tts : Bool
  embed : Option Obj
  embeds : Option (List Obj)
  file : Option Obj
  files : Option (List Obj)
  nonce : Option NonceV
  allowed_mentions : Option Obj
  view : Option Obj
  suppress_embeds : Bool
  ephemeral : Bool
deriving DecidableEq

/-- The keyword arguments forwarded to `interaction.channel.send` on lines
283 to 294; there is no `ephemeral` field. -/
structure ChannelSendArgs where
  content : Option String
  tts : Bool
  embed : Option Obj
  embeds : Option (List Obj)
  file : Option Obj
  files : Option (List Obj)
  nonce : Option NonceV
  allowed_mentions : Option Obj
  view : Option Obj
  suppress_embeds : Bool
deriving DecidableEq

/-- A value after the `None` to `MISSING` normalization of lines 296 to
308. -/
inductive MaybeMissing (α : Type) where
  | missing
  | val (a : α)
deriving DecidableEq

/-- `MISSING if x is None else x` (lines 300 to 305). -/
def noneToMissing {α : Type} : Option α → MaybeMissing α
  | none => MaybeMissing.missing
  | some a => MaybeMissing.val a

/-- The `kwargs` dictionary built on lines 297 to 308 and forwarded to
`interaction.followup.send` or `interaction.response.send_message`; note it
has no `nonce` entry and it has an `ephemeral` entry. -/
structure InteractionSendKwargs where
  content : Option String
  tts : Bool
  embed : MaybeMissing Obj
  embeds : MaybeMissing (List Obj)
  file : MaybeMissing Obj
  files : MaybeMissing (List Obj)
  allowed_mentions : MaybeMissing Obj
  view : MaybeMissing Obj
  suppress_embeds : Bool
  ephemeral : Bool
deriving DecidableEq

/-- The interaction state `Command.send` branches on: `is_expired()` (line
282) and `response.is_done()` (line 310). -/
structure InteractionState where
  expired : Bool
  responseDone : Bool
deriving DecidableEq

/-- The three reply paths of `Command.send`: `interaction.channel.send`
(line 283), `interaction.followup.send` with its `wait` argument (line
311), `interaction.response.send_message` (line 313). -/
inductive SendRoute where
  | channelSend (a : ChannelSendArgs)
  | followupSend (k : InteractionSendKwargs) (wait : Bool)
  | responseSendMessage (k : InteractionSendKwargs)
deriving DecidableEq

/-- Where the `Message` returned by `Command.send` comes from on each path:
the value of the channel send (line 283), the value of the followup send
(line 311), or a subsequent `interaction.original_message()` call (line
314). -/
inductive MsgSource where
  | channelSendReturn
  | followupReturn
  | originalMessage
deriving DecidableEq

/-- The message source of each route, per lines 283, 311 and 313 to 314. -/
def SendRoute.returned : SendRoute → MsgSource
  | SendRoute.channelSend _ => MsgSource.channelSendReturn
  | SendRoute.followupSend _ _ => MsgSource.followupReturn
  | SendRoute.responseSendMessage _ => MsgSource.originalMessage

/-- The `ephemeral` value forwarded on a route, if any is forwarded at
all. -/
def SendRoute.ephemeralArg : SendRoute → Option Bool
  | SendRoute.channelSend _ => none
  | SendRoute.followupSend k _ => some k.ephemeral
  | SendRoute.responseSendMessage k => some k.ephemeral

/-- The routing logic of `Command.send` (lines 280 to 314): expired goes to
the channel send with the ten listed keywords; otherwise the normalized
`kwargs` go to the followup send with `wait=True` when a response was
already given, else to the initial response. -/
def Command.send (i : InteractionState) (a : SendArgs) : SendRoute :=
  if i.expired then
    SendRoute.channelSend
      ⟨a.content, a.tts, a.embed, a.embeds, a.file, a.files, a.nonce,
       a.allowed_mentions, a.view, a.suppress_embeds⟩
  else
    let kwargs : InteractionSendKwargs :=
      ⟨a.content, a.tts, noneToMissing a.embed, noneToMissing a.embeds,
       noneToMissing a.file, noneToMissing a.files,
       noneToMissing a.allowed_mentions, noneToMissing a.view,
       a.suppress_embeds, a.ephemeral⟩
    if i.responseDone then SendRoute.followupSend kwargs true
    else SendRoute.responseSendMessage kwargs

/-- Per instance Python attribute storage: instance number to attribute name
to stored value (`None` when the name is absent from that instance
`__dict__`). -/
abbrev Heap : Type := Nat → String → Option Value

/-- Python `setattr` on an instance: writes the binding into the `__dict__`
of that instance only. -/
def setattrInst (h : Heap) (i : Nat) (k : String) (v : Value) : Heap :=
  fun j k2 => if j = i then (if k2 = k then some v else h i k2) else h j k2

/-- Python attribute lookup on an instance: the instance `__dict__` first,
then the shared class dictionary. -/
def getattrInst (classDict : String → Option Value) (h : Heap) (i : Nat) (k : String) :
    Option Value :=
  match h i k with
  | some v => some v
  | none => classDict k

/-
Helper lemmas about the metaclass run.
-/

theorem runLoop_eq (anns : List (String × String)) (attrs : List (String × Value)) (st : MetaState) :
    runLoop anns attrs st =
      if attrs.all (fun kv => skipAttr kv.1 kv.2) then Except.ok st
      else Except.error (PyError.nameError "Parameter", st) := by
  induction attrs with
  | nil => rfl
  | cons kv rest ih =>
    obtain ⟨k, v⟩ := kv
    by_cases hs : skipAttr k v = true
    · have h1 : stepAttr anns st k v = Except.ok st := by
        simp [stepAttr, hs]
      rw [List.all_cons]
      simp only [runLoop, h1, ih, hs, Bool.true_and]
    · have h1 : stepAttr anns st k v = Except.error (PyError.nameError "Parameter", st) := by
        simp [stepAttr, hs, parameterIsBound]
      rw [List.all_cons]
      simp only [runLoop, h1]
      rw [Bool.eq_false_iff.mpr hs]
      simp

theorem commandMetaNew_eq (attrs : List (String × Value)) (anns : List (String × String)) :
    CommandMeta.new attrs anns =
      if attrs.all (fun kv => skipAttr kv.1 kv.2) then Except.ok ⟨[], [], []⟩
      else Except.error (PyError.nameError "Parameter", ⟨[], [], []⟩) := by
  unfold CommandMeta.new
  rw [runLoop_eq]
  by_cases h : attrs.all (fun kv => skipAttr kv.1 kv.2) = true
  · simp [h, contextMenuGuardHolds, builtinTypeIsUserOrMessage]
  · simp [h]

theorem resultState_empty (attrs : List (String × Value)) (anns : List (String × String)) :
    resultState (CommandMeta.new attrs anns) = ⟨[], [], []⟩ := by
  rw [commandMetaNew_eq]
  by_cases h : attrs.all (fun kv => skipAttr kv.1 kv.2) = true
  · simp [h, resultState]
  · simp [h, resultState]

/-
Claim theorems.
-/

/-- Claim C1.  The claim fails on the code: a user command or message
command class body with two eligible valued attributes raises
NameError("Parameter") at line 128, not TypeError; moreover the TypeError
of line 142 is unreachable for every class body, because line 141 compares
the Python builtin `type` against the two AppCommandType members. -/
theorem c1_two_params_raise_nameerror_not_typeerror :
    CommandMeta.new [("first", Value.int_ 1), ("second", Value.int_ 2)] [] =
      Except.error (PyError.nameError "Parameter", ⟨[], [], []⟩) ∧
    ∀ (attrs : List (String × Value)) (anns : List (String × String)),
      isTypeErr (CommandMeta.new attrs anns) = false := by
  constructor
  · rfl
  · intro attrs anns
    rw [commandMetaNew_eq]
    by_cases h : attrs.all (fun kv => skipAttr kv.1 kv.2) = true
    · simp [h, isTypeErr]
    · simp [h, isTypeErr]

/-- Claim C2.  The claim fails on the code: an attribute assigned an
Option value with default, name and description all set makes class
construction raise NameError("Parameter") at line 128 with the
accumulators still empty, so no descriptor, rename entry or description
entry is produced. -/
theorem c2_option_attr_raises_nameerror :
    CommandMeta.new
        [("opt",
          Value.option_ (Value.int_ 1) (Value.str_ "renamed") (Value.str_ "about") false)]
        [] =
      Except.error (PyError.nameError "Parameter", ⟨[], [], []⟩) := by
  rfl

/-- Claim C3.  The claim fails on the code: an attribute assigned a bare
non sentinel value makes class construction raise NameError("Parameter")
at line 128 with the accumulators still empty, so no descriptor with that
default is produced. -/
theorem c3_bare_default_attr_raises_nameerror :
    CommandMeta.new [("x", Value.int_ 5)] [] =
      Except.error (PyError.nameError "Parameter", ⟨[], [], []⟩) := by
  rfl

/-- Claim C4.  Whenever some class body attribute escapes the skip
condition of line 123, class construction raises NameError("Parameter")
from line 128, with the accumulators in their initial empty state, so no
parameter descriptor was recorded before the raise; and in every run,
raising or not, the Option extraction and bare default branches never
contribute: the reached accumulator state is always empty. -/
theorem c4_unbound_parameter_name_raises
    (attrs : List (String × Value)) (anns : List (String × String))
    (h : attrs.any (fun kv => !skipAttr kv.1 kv.2) = true) :
    CommandMeta.new attrs anns =
      Except.error (PyError.nameError "Parameter", ⟨[], [], []⟩) ∧
    resultState (CommandMeta.new attrs anns) = ⟨[], [], []⟩ := by
  have hall : attrs.all (fun kv => skipAttr kv.1 kv.2) = false := by
    rcases List.any_eq_true.mp h with ⟨kv, hmem, hkv⟩
    cases hf : attrs.all (fun kv => skipAttr kv.1 kv.2) with
    | false => rfl
    | true =>
      have hk := List.all_eq_true.mp hf kv hmem
      simp [hk] at hkv
  refine ⟨?_, resultState_empty attrs anns⟩
  rw [commandMetaNew_eq, hall]
  rfl

/-- Witness for C4 at a class body with one eligible boolean attribute. -/
theorem c4_unbound_parameter_name_raises_witness :
    CommandMeta.new [("flag", Value.bool_ true)] [] =
      Except.error (PyError.nameError "Parameter", ⟨[], [], []⟩) ∧
    resultState (CommandMeta.new [("flag", Value.bool_ true)] []) = ⟨[], [], []⟩ :=
  c4_unbound_parameter_name_raises [("flag", Value.bool_ true)] [] (by decide)

/-- Claim C5.  The claim fails on the code: an eligible annotated valued
attribute makes class construction raise NameError("Parameter") at line
128 with the accumulators still empty, so no parameter descriptor list is
ever attached. -/
theorem c5_eligible_attr_descriptor_never_recorded :
    CommandMeta.new [("count", Value.int_ 1)] [("count", "int")] =
      Except.error (PyError.nameError "Parameter", ⟨[], [], []⟩) := by
  rfl

/-- Claim C6.  An attribute declared only through a type annotation is
absent from the class namespace dictionary the loop of line 122 iterates,
so no parameter descriptor, rename entry or description entry is ever
produced for it. -/
theorem c6_annotation_only_attr_omitted
    (attrs : List (String × Value)) (anns : List (String × String)) (k : String)
    (h : (attrs.map Prod.fst).contains k = false) :
    ((resultState (CommandMeta.new attrs anns)).arguments.map ParameterData.name).contains k
        = false ∧
    ((resultState (CommandMeta.new attrs anns)).renames.map Prod.fst).contains k = false ∧
    ((resultState (CommandMeta.new attrs anns)).descriptions.map Prod.fst).contains k
        = false := by
  rw [resultState_empty]
  exact ⟨rfl, rfl, rfl⟩

/-- Witness for C6: a class body whose only namespace entry is a function
and whose only annotation is an annotation only attribute `target`. -/
theorem c6_annotation_only_attr_omitted_witness :
    ((resultState (CommandMeta.new [("helper", Value.function)]
        [("target", "Message")])).arguments.map ParameterData.name).contains "target"
        = false ∧
    ((resultState (CommandMeta.new [("helper", Value.function)]
        [("target", "Message")])).renames.map Prod.fst).contains "target" = false ∧
    ((resultState (CommandMeta.new [("helper", Value.function)]
        [("target", "Message")])).descriptions.map Prod.fst).contains "target" = false :=
  c6_annotation_only_attr_omitted [("helper", Value.function)] [("target", "Message")]
    "target" (by decide)

/-- Claim C7.  When the interaction is expired, send routes to the channel
level send with exactly the ten channel keywords of lines 283 to 294, and
no ephemeral argument is forwarded on that path. -/
theorem c7_expired_routes_channel_send (i : InteractionState) (a : SendArgs)
    (h : i.expired = true) :
    Command.send i a =
      SendRoute.channelSend
        ⟨a.content, a.tts, a.embed, a.embeds, a.file, a.files, a.nonce,
         a.allowed_mentions, a.view, a.suppress_embeds⟩ ∧
    SendRoute.ephemeralArg (Command.send i a) = none := by
  unfold Command.send
  rw [h]
  exact ⟨rfl, rfl⟩

/-- Witness for C7 on an expired interaction with ephemeral requested. -/
theorem c7_expired_routes_channel_send_witness :
    Command.send ⟨true, false⟩
        ⟨some "hello", false, none, none, none, none, none, none, none, false, true⟩ =
      SendRoute.channelSend
        ⟨some "hello", false, none, none, none, none, none, none, none, false⟩ ∧
    SendRoute.ephemeralArg
        (Command.send ⟨true, false⟩
          ⟨some "hello", false, none, none, none, none, none, none, none, false, true⟩)
        = none :=
  c7_expired_routes_channel_send ⟨true, false⟩
    ⟨some "hello", false, none, none, none, none, none, none, none, false, true⟩ rfl

/-- Claim C8.  When the interaction is not expired and a response was
already given, send routes to the followup send with the normalized kwargs
of lines 297 to 308 and wait set to true. -/
theorem c8_responded_routes_followup_wait (i : InteractionState) (a : SendArgs)
    (h1 : i.expired = false) (h2 : i.responseDone = true) :
    Command.send i a =
      SendRoute.followupSend
        ⟨a.content, a.tts, noneToMissing a.embed, noneToMissing a.embeds,
         noneToMissing a.file, noneToMissing a.files,
         noneToMissing a.allowed_mentions, noneToMissing a.view,
         a.suppress_embeds, a.ephemeral⟩ true := by
  unfold Command.send
  rw [h1, h2]
  rfl

/-- Witness for C8 on a live, already responded interaction. -/
theorem c8_responded_routes_followup_wait_witness :
    Command.send ⟨false, true⟩
        ⟨some "reply", true, some ⟨7⟩, none, none, none, none, none, none, false, true⟩ =
      SendRoute.followupSend
        ⟨some "reply", true, MaybeMissing.val ⟨7⟩, MaybeMissing.missing,
         MaybeMissing.missing, MaybeMissing.missing, MaybeMissing.missing,
         MaybeMissing.missing, false, true⟩ true :=
  c8_responded_routes_followup_wait ⟨false, true⟩
    ⟨some "reply", true, some ⟨7⟩, none, none, none, none, none, none, false, true⟩ rfl rfl

/-- Claim C9.  When the interaction is not expired and no response was
given yet, send routes to the initial interaction response with the
normalized kwargs, and the returned message is the one a subsequent
original message fetch resolves. -/
theorem c9_unresponded_routes_initial_response (i : InteractionState) (a : SendArgs)
    (h1 : i.expired = false) (h2 : i.responseDone = false) :
    Command.send i a =
      SendRoute.responseSendMessage
        ⟨a.content, a.tts, noneToMissing a.embed, noneToMissing a.embeds,
         noneToMissing a.file, noneToMissing a.files,
         noneToMissing a.allowed_mentions, noneToMissing a.view,
         a.suppress_embeds, a.ephemeral⟩ ∧
    SendRoute.returned (Command.send i a) = MsgSource.originalMessage := by
  unfold Command.send
  rw [h1, h2]
  exact ⟨rfl, rfl⟩

/-- Witness for C9 on a live, not yet responded interaction. -/
theorem c9_unresponded_routes_initial_response_witness :
    Command.send ⟨false, false⟩
        ⟨none, false, none, none, some ⟨3⟩, none, none, none, none, true, false⟩ =
      SendRoute.responseSendMessage
        ⟨none, false, MaybeMissing.missing, MaybeMissing.missing,
         MaybeMissing.val ⟨3⟩, MaybeMissing.missing, MaybeMissing.missing,
         MaybeMissing.missing, true, false⟩ ∧
    SendRoute.returned
        (Command.send ⟨false, false⟩
          ⟨none, false, none, none, some ⟨3⟩, none, none, none, none, true, false⟩)
        = MsgSource.originalMessage :=
  c9_unresponded_routes_initial_response ⟨false, false⟩
    ⟨none, false, none, none, some ⟨3⟩, none, none, none, none, true, false⟩ rfl rfl

/-- Claim C10.  Setting an attribute on one command instance writes only
that instance own dictionary: every attribute read on a different instance
is unchanged, so no mutable state is shared between two instances created
for two invocations. -/
theorem c10_instances_do_not_share_state
    (classDict : String → Option Value) (h : Heap) (i j : Nat) (k : String) (v : Value)
    (k2 : String) (hne : i ≠ j) :
    getattrInst classDict (setattrInst h i k v) j k2 = getattrInst classDict h j k2 := by
  have hj : setattrInst h i k v j k2 = h j k2 := by
    unfold setattrInst
    rw [if_neg (fun hji => hne hji.symm)]
  unfold getattrInst
  rw [hj]

/-- Witness for C10 on two concrete instances numbered 0 and 1. -/
theorem c10_instances_do_not_share_state_witness :
    getattrInst (fun _ => none) (setattrInst (fun _ _ => none) 0 "value" (Value.int_ 5))
        1 "value" =
      getattrInst (fun _ => none) (fun _ _ => none) 1 "value" :=
  c10_instances_do_not_share_state (fun _ => none) (fun _ _ => none) 0 1 "value"
    (Value.int_ 5) "value" (by decide)
